import Mathlib

/-!
Shallow embedding of the BSG charge-point simulator: the CSMS-side OCPP session
handlers and heartbeat watchdog (core/csms_server.py), the event-to-CSV log
routing (simulations/base/scenario_base.py) and the scenario-side transaction
guards and state-of-charge integrator (simulations/dalgali_yuk/scenario.py and
simulations/sebeke_istikrarsizligi/scenario.py), together with theorems that
settle the specification claims about them.

Modelling conventions: machine time (datetime.utcnow) is an integer number of
seconds; floats are rationals; Python dicts keyed by connector id are
association lists; the heterogeneous event payload dict is a record of
optional fields covering the keys the handlers actually set (free-form
`payload` sub-dicts and purely decorative keys are not modelled, as no
behaviour reads them).
-/

/-- Authorization status values the CSMS produces
(ocpp.v16.enums.AuthorizationStatus restricted to accepted / invalid,
the only two values csms_server.py ever returns). -/
inductive AuthStatus where
  | accepted
  | invalid
deriving DecidableEq, Repr

/-- String value of an authorization status (`status.value` in the source). -/
def AuthStatus.value : AuthStatus → String
  | .accepted => "Accepted"
  | .invalid => "Invalid"

/-- One sampled value inside a MeterValues frame (charge_point.py builds these
with string `value` and `measurand` keys).  `value` is the parsed float:
`none` models both a missing value and an unparseable string, which the log
writer skips identically (scenario_base.py 480-486). -/
structure SampledValue where
  measurand : Option String := none
  value : Option ℚ := none
deriving DecidableEq, Repr

/-- One entry of the `meter_value` list (charge_point.py 275-280). -/
structure MeterValueEntry where
  sampledValue : List SampledValue := []
deriving DecidableEq, Repr

/-- The event payload dict handed to `_fire_event` / the event callback.
All fields are optional: each handler sets only the keys it mentions
(csms_server.py).  `last_heartbeat` and `diff_seconds` appear in the
CPOffline payload; times are modelled as integer seconds. -/
structure EventData where
  cp_id : Option String := none
  charge_point_id : Option String := none
  connector_id : Option Nat := none
  transaction_id : Option Nat := none
  id_tag : Option String := none
  timestamp : Option String := none
  status : Option String := none
  error_code : Option String := none
  meter_start : Option Int := none
  meter_stop : Option Int := none
  reason : Option String := none
  authorized : Option Bool := none
  vendor : Option String := none
  model : Option String := none
  last_heartbeat : Option Int := none
  diff_seconds : Option Int := none
  meter_value : List MeterValueEntry := []
deriving DecidableEq, Repr

/-- Per-connector record stored in `CSMSChargePoint._connectors`
(csms_server.py): a dict whose keys `status`, `error_code`, `last_tx_id`
are set by the handlers.  The decorative `timestamp` / `payload` keys are
not modelled (nothing reads them). -/
structure Connector where
  status : Option String := none
  error_code : Option String := none
  last_tx_id : Option Nat := none
deriving DecidableEq, Repr

/-- CSMS-side per-CP session state (`CSMSChargePoint.__init__`,
csms_server.py 36-63): transaction-id counter starting at 1, heartbeat
tracking (interval 10 s), connector map and the per-connection set of
authorized id tags. -/
structure Session where
  id : String
  next_tx_id : Nat := 1
  last_heartbeat : Option Int := none
  heartbeat_interval : Int := 10
  connectors : List (Nat × Connector) := []
  authorized_tags : List String := []
deriving DecidableEq, Repr

/-- Fresh session as built on WebSocket accept (csms_server.py 475-488). -/
def init_session (cp_id : String) : Session := { id := cp_id }

/-- Static id-tag table `VALID_TAGS` (csms_server.py 22-26): tag to display
name. -/
def VALID_TAGS : List (String × String) :=
  [("YUNUS_TAG", "Yunus Sunuy"), ("AYSE_TAG", "Ayşe Kenefir"), ("TEST123", "Test Kullanıcısı")]

/-- Python `id_tag in VALID_TAGS` (dict key membership). -/
def valid_tag (id_tag : String) : Bool :=
  (VALID_TAGS.map Prod.fst).contains id_tag

/-- Update the first entry with the given connector id, if present
(Python dict item mutation). -/
def conn_update (connector_id : Nat) (f : Connector → Connector) :
    List (Nat × Connector) → List (Nat × Connector)
  | [] => []
  | (k, c) :: rest =>
    if k = connector_id then (k, f c) :: rest
    else (k, c) :: conn_update connector_id f rest

/-- Python `connector_id in dict`. -/
def conn_mem (connector_id : Nat) (cs : List (Nat × Connector)) : Bool :=
  cs.any (fun p => p.1 == connector_id)

/-- Python `dict[connector_id] = c` (replace if present, else insert at the
end, matching dict insertion order). -/
def conn_set (connector_id : Nat) (c : Connector) (cs : List (Nat × Connector)) :
    List (Nat × Connector) :=
  if conn_mem connector_id cs then conn_update connector_id (fun _ => c) cs
  else cs ++ [(connector_id, c)]

/-- Python `dict.setdefault(connector_id, {})` followed by in-place updates
`f` on the record (csms_server.py 264-266). -/
def conn_setdefault_update (connector_id : Nat) (f : Connector → Connector)
    (cs : List (Nat × Connector)) : List (Nat × Connector) :=
  if conn_mem connector_id cs then conn_update connector_id f cs
  else cs ++ [(connector_id, f {})]

/-- Python `dict.get(connector_id)`. -/
def lookup_conn (connector_id : Nat) : List (Nat × Connector) → Option Connector
  | [] => none
  | (k, c) :: rest => if k = connector_id then some c else lookup_conn connector_id rest

/-- CALLRESULT payloads returned by the CSMS handlers (ocpp.v16.call_result
objects, restricted to the fields the scenarios read).  Times are integer
seconds. -/
inductive Reply where
  | bootNotification (current_time : Int) (interval : Int) (status : String)
  | heartbeat (current_time : Int)
  | statusNotification
  | authorize (status : AuthStatus)
  | startTransaction (transaction_id : Nat) (status : AuthStatus)
  | meterValues
  | stopTransaction
deriving DecidableEq, Repr

/-- BootNotification handler (csms_server.py 91-124): records the boot time as
the last heartbeat, emits a BootNotification event and answers Accepted with
the session's heartbeat interval. -/
def on_boot_notification (s : Session) (charge_point_vendor charge_point_model : String)
    (now : Int) : Session × Reply × List (String × EventData) :=
  ({ s with last_heartbeat := some now },
   .bootNotification now s.heartbeat_interval "Accepted",
   [("BootNotification",
     { cp_id := some s.id, vendor := some charge_point_vendor,
       model := some charge_point_model })])

/-- Heartbeat handler (csms_server.py 126-140): refreshes `last_heartbeat`,
emits a Heartbeat event and returns the current time. -/
def on_heartbeat (s : Session) (now : Int) : Session × Reply × List (String × EventData) :=
  ({ s with last_heartbeat := some now },
   .heartbeat now,
   [("Heartbeat", { cp_id := some s.id })])

/-- StatusNotification handler (csms_server.py 142-181): replaces the
connector's record with status / error_code (dropping any previous
`last_tx_id`, as the source's dict assignment does) and emits an event. -/
def on_status_notification (s : Session) (connector_id : Nat)
    (error_code status : String) (timestamp : String) :
    Session × Reply × List (String × EventData) :=
  ({ s with connectors :=
      conn_set connector_id { status := some status, error_code := some error_code } s.connectors },
   .statusNotification,
   [("StatusNotification",
     { cp_id := some s.id, connector_id := some connector_id, status := some status,
       error_code := some error_code, timestamp := some timestamp })])

/-- Authorize handler (csms_server.py 183-214): checks the tag against
`VALID_TAGS`; on success records it into the session's authorized set; emits
an Authorize event carrying the resulting status. -/
def on_authorize (s : Session) (id_tag : String) : Session × Reply × List (String × EventData) :=
  let status : AuthStatus := if valid_tag id_tag then .accepted else .invalid
  (if valid_tag id_tag then { s with authorized_tags := s.authorized_tags.insert id_tag } else s,
   .authorize status,
   [("Authorize",
     { cp_id := some s.id, id_tag := some id_tag, status := some status.value,
       authorized := some (decide (status = .accepted)) })])

/-- StartTransaction handler (csms_server.py 216-291): if the tag was not
authorized on this connection, emit StartTransactionRejected and answer
`(transaction_id = 0, Invalid)` leaving the session untouched; otherwise
allocate the next transaction id, mark the connector Charging with this
`last_tx_id`, emit a StartTransaction event and answer Accepted. -/
def on_start_transaction (s : Session) (connector_id : Nat) (id_tag : String)
    (meter_start : Int) (timestamp : String) :
    Session × Reply × List (String × EventData) :=
  if id_tag ∈ s.authorized_tags then
    let tx_id := s.next_tx_id
    ({ s with
        next_tx_id := s.next_tx_id + 1,
        connectors := conn_setdefault_update connector_id
          (fun c => { c with status := some "Charging", last_tx_id := some tx_id })
          s.connectors },
     .startTransaction tx_id .accepted,
     [("StartTransaction",
       { cp_id := some s.id, connector_id := some connector_id, id_tag := some id_tag,
         meter_start := some meter_start, timestamp := some timestamp,
         transaction_id := some tx_id, authorized := some true })])
  else
    (s,
     .startTransaction 0 .invalid,
     [("StartTransactionRejected",
       { cp_id := some s.id, connector_id := some connector_id, id_tag := some id_tag,
         meter_start := some meter_start, timestamp := some timestamp,
         authorized := some false, reason := some "id_tag_not_authorized" })])

/-- MeterValues handler (csms_server.py 293-321): accepted unconditionally,
emits the raw sample list, changes no session state. -/
def on_meter_values (s : Session) (connector_id : Nat)
    (meter_value : List MeterValueEntry) (transaction_id : Option Nat) :
    Session × Reply × List (String × EventData) :=
  (s,
   .meterValues,
   [("MeterValues",
     { cp_id := some s.id, connector_id := some connector_id,
       transaction_id := transaction_id, meter_value := meter_value })])

/-- StopTransaction handler (csms_server.py 323-355): emits a StopTransaction
event, sets every connector whose `last_tx_id` equals the given id to
Available, and answers with the (unconditional) empty acceptance. -/
def on_stop_transaction (s : Session) (transaction_id : Nat) (meter_stop : Int)
    (timestamp : String) : Session × Reply × List (String × EventData) :=
  ({ s with connectors :=
      s.connectors.map (fun p =>
        if p.2.last_tx_id = some transaction_id then
          (p.1, { p.2 with status := some "Available" })
        else p) },
   .stopTransaction,
   [("StopTransaction",
     { cp_id := some s.id, transaction_id := some transaction_id,
       meter_stop := some meter_stop, timestamp := some timestamp })])

/-- Inbound OCPP CALLs a session can receive, with the arguments the CSMS
handlers consume. -/
inductive Msg where
  | bootNotification (charge_point_vendor charge_point_model : String) (now : Int)
  | heartbeat (now : Int)
  | statusNotification (connector_id : Nat) (error_code status timestamp : String)
  | authorize (id_tag : String)
  | startTransaction (connector_id : Nat) (id_tag : String) (meter_start : Int) (timestamp : String)
  | meterValues (connector_id : Nat) (meter_value : List MeterValueEntry) (transaction_id : Option Nat)
  | stopTransaction (transaction_id : Nat) (meter_stop : Int) (timestamp : String)
deriving DecidableEq, Repr

/-- Dispatch of an inbound CALL to its handler (the `@on(...)` routing of
csms_server.py). -/
def handle (s : Session) : Msg → Session × Reply × List (String × EventData)
  | .bootNotification v m now => on_boot_notification s v m now
  | .heartbeat now => on_heartbeat s now
  | .statusNotification cid ec st ts => on_status_notification s cid ec st ts
  | .authorize tag => on_authorize s tag
  | .startTransaction cid tag ms ts => on_start_transaction s cid tag ms ts
  | .meterValues cid mv tx => on_meter_values s cid mv tx
  | .stopTransaction tx ms ts => on_stop_transaction s tx ms ts

/-- Session state after processing a sequence of inbound CALLs in order. -/
def run_msgs (s : Session) : List Msg → Session
  | [] => s
  | m :: ms => run_msgs (handle s m).1 ms

/-- Replies produced while processing a sequence of inbound CALLs in order. -/
def run_replies (s : Session) : List Msg → List Reply
  | [] => []
  | m :: ms => (handle s m).2.1 :: run_replies (handle s m).1 ms

/-- Transaction ids of the accepted StartTransaction answers among a reply
sequence, in order. -/
def accepted_tx_ids (rs : List Reply) : List Nat :=
  rs.filterMap fun r =>
    match r with
    | .startTransaction tx .accepted => some tx
    | _ => none

/-- Watchdog tick period in seconds (`CHECK_INTERVAL`, csms_server.py 431). -/
def CHECK_INTERVAL : Nat := 5

/-- Offline test of one session at time `now` (csms_server.py 438-448):
sessions with no recorded heartbeat are skipped; otherwise the session is
offline when `now - last_heartbeat` exceeds `heartbeat_interval * 3`. -/
def is_offline (now : Int) (s : Session) : Bool :=
  match s.last_heartbeat with
  | none => false
  | some last => decide (now - last > s.heartbeat_interval * 3)

/-- Marking every connector of a session Unavailable
(csms_server.py 465-466). -/
def mark_unavailable (s : Session) : Session :=
  { s with connectors := s.connectors.map (fun p => (p.1, { p.2 with status := some "Unavailable" })) }

/-- CPOffline event payload (csms_server.py 456-463). -/
def cp_offline_event (now : Int) (cp_id : String) (s : Session) : EventData :=
  { cp_id := some cp_id, last_heartbeat := s.last_heartbeat,
    diff_seconds := s.last_heartbeat.map (fun last => now - last) }

/-- Outcome of one watchdog pass over the registry: the sessions that stay
registered, the sessions whose transport was closed (with their connectors
already marked Unavailable), and the emitted events. -/
structure WatchdogResult where
  remaining : List (String × Session)
  closed : List (String × Session)
  events : List (String × EventData)
deriving DecidableEq, Repr

/-- One pass of `CentralSystem._heartbeat_watchdog` over the active-session
registry at time `now` (csms_server.py 426-473): each offline session gets a
CPOffline event, its connectors marked Unavailable, its transport closed and
its registry entry removed; the others are left untouched. -/
def heartbeat_watchdog_tick (now : Int) : List (String × Session) → WatchdogResult
  | [] => ⟨[], [], []⟩
  | (cp_id, cp) :: rest =>
    let r := heartbeat_watchdog_tick now rest
    if is_offline now cp then
      ⟨r.remaining,
       (cp_id, mark_unavailable cp) :: r.closed,
       ("CPOffline", cp_offline_event now cp_id cp) :: r.events⟩
    else
      ⟨(cp_id, cp) :: r.remaining, r.closed, r.events⟩

/-- Registry left after a sequence of watchdog ticks at the given times. -/
def run_watchdog (times : List Int) (reg : List (String × Session)) :
    List (String × Session) :=
  times.foldl (fun r t => (heartbeat_watchdog_tick t r).remaining) reg

/-- Numeric fields extracted from a MeterValues payload
(scenario_base.py 448-495 and the identical block at 555-604). -/
structure Extracted where
  power_kw : Option ℚ := none
  current_a : Option ℚ := none
  voltage_v : Option ℚ := none
  soc_percent : Option ℚ := none
deriving DecidableEq, Repr

/-- Fold step over the sampled values of the first meter_value entry:
a sample with a parseable value lands in the field its measurand names;
anything else is skipped (scenario_base.py 472-495). -/
def apply_sample (acc : Extracted) (sv : SampledValue) : Extracted :=
  match sv.value with
  | none => acc
  | some val =>
    match sv.measurand with
    | some "Power.Active.Import" => { acc with power_kw := some val }
    | some "Current.Import" => { acc with current_a := some val }
    | some "Voltage" => { acc with voltage_v := some val }
    | some "SoC" => { acc with soc_percent := some val }
    | some "StateOfCharge" => { acc with soc_percent := some val }
    | _ => acc

/-- Extraction of the four numeric fields from a `meter_value` list: only the
first entry's sampled values are inspected (scenario_base.py 456-457). -/
def extract_measurands (meter_value : List MeterValueEntry) : Extracted :=
  match meter_value with
  | [] => {}
  | first :: _ => first.sampledValue.foldl apply_sample {}

/-- One row of the unified labeled table (`ScenarioBase.FIELDNAMES`);
`raw_payload` keeps the JSON-serialized event, modelled as the event
itself. -/
structure Row where
  timestamp : String
  charge_point_id : Option String
  scenario : String
  mode : String
  step : Nat
  message_type : String
  transaction_id : Option Nat
  connector_id : Option Nat
  id_tag : Option String
  power_kw : Option ℚ
  current_a : Option ℚ
  voltage_v : Option ℚ
  soc_percent : Option ℚ
  label : String
  raw_payload : EventData
deriving DecidableEq, Repr

/-- Faithful model of `ScenarioBase._event_to_row` (scenario_base.py 535-630):
Heartbeat events produce no row and leave the step counter alone; every other
event bumps the counter and produces exactly one row, extracting the numeric
fields only for MeterValues.  `label_for` stands for the scenario's abstract
`get_label_for_event`; `now_iso` is the `_utc_now_iso()` fallback timestamp. -/
def event_to_row (label_for : EventData → String → String)
    (scenario_name mode now_iso message_type : String) (e : EventData)
    (step_counter : Nat) : Option Row × Nat :=
  if message_type = "Heartbeat" then (none, step_counter)
  else
    let ex : Extracted :=
      if message_type = "MeterValues" then extract_measurands e.meter_value else {}
    (some
      { timestamp := e.timestamp.getD now_iso,
        charge_point_id := (e.cp_id).orElse (fun _ => e.charge_point_id),
        scenario := scenario_name,
        mode := mode,
        step := step_counter + 1,
        message_type := message_type,
        transaction_id := e.transaction_id,
        connector_id := e.connector_id,
        id_tag := e.id_tag,
        power_kw := ex.power_kw,
        current_a := ex.current_a,
        voltage_v := ex.voltage_v,
        soc_percent := ex.soc_percent,
        label := label_for e mode,
        raw_payload := e },
     step_counter + 1)

/-- The unified labeled table built by `_on_event` from a stream of events,
threading the per-run step counter through `event_to_row`
(scenario_base.py 367-395). -/
def unified_rows (label_for : EventData → String → String)
    (scenario_name mode now_iso : String) (step_counter : Nat) :
    List (String × EventData) → List Row
  | [] => []
  | (mt, e) :: rest =>
    match event_to_row label_for scenario_name mode now_iso mt e step_counter with
    | (none, c) => unified_rows label_for scenario_name mode now_iso c rest
    | (some row, c) => row :: unified_rows label_for scenario_name mode now_iso c rest

/-- The four type-specific CSV tables of `_log_realistic`. -/
inductive TypedTable where
  | heartbeats
  | status_notifications
  | meter_values
  | transactions
deriving DecidableEq, Repr

/-- Routing of `_log_realistic` (scenario_base.py 399-530): which typed table
an event's row goes to, following the source's if/elif chain; events of any
other message type are written to events_raw only. -/
def typed_table_for (message_type : String) : Option TypedTable :=
  if message_type = "Heartbeat" then some .heartbeats
  else if message_type = "StatusNotification" then some .status_notifications
  else if message_type = "MeterValues" then some .meter_values
  else if message_type = "StartTransaction" ∨ message_type = "StopTransaction" then
    some .transactions
  else none

/-- Rows written to events_raw: one per event, unconditionally
(scenario_base.py 405-416). -/
def raw_row_count (evs : List (String × EventData)) : Nat := evs.length

/-- Rows written to one typed table over an event stream. -/
def typed_row_count (t : TypedTable) (evs : List (String × EventData)) : Nat :=
  (evs.filter (fun p => decide (typed_table_for p.1 = some t))).length

/-- Events written to no typed table (BootNotification, Authorize,
StartTransactionRejected, CPOffline, ...). -/
def untyped_row_count (evs : List (String × EventData)) : Nat :=
  (evs.filter (fun p => decide (typed_table_for p.1 = none))).length

/-- State-of-charge integration step shared by the scenarios
(dalgali_yuk/scenario.py 137-145 and sebeke_istikrarsizligi/scenario.py
196-203): with `dt_hours = 1/3600`, `energy = max(power_kw, 0) * dt_hours`,
`delta = energy / battery_capacity_kwh * 100`, the new SoC is
`min(100, soc + delta)`. -/
def soc_step (battery_capacity_kwh soc power_kw : ℚ) : ℚ :=
  min 100 (soc + max power_kw 0 * (1 / 3600) / battery_capacity_kwh * 100)

/-- Initial SoC assumed for every CP by both scenarios
(dalgali_yuk/scenario.py 103, sebeke_istikrarsizligi/scenario.py 119). -/
def initial_soc : ℚ := 20

/-- Battery capacity both catalog scenarios configure
(dalgali_yuk/scenario.py 102, sebeke_istikrarsizligi/scenario.py 18). -/
def battery_capacity_kwh : ℚ := 60

/-- Transaction guard of dalgali_yuk (scenario.py 109-111 before MeterValues
and 165-166 before StopTransaction): Python `if not tx_id: continue`, so a CP
whose stored transaction id is missing or 0 (the CSMS hard-rejection value)
sends nothing. -/
def dalgali_tx_guard (tx_entry : Option Nat) : Bool :=
  match tx_entry with
  | none => false
  | some tx => tx != 0

/-- Stop-loop guard of sebeke_istikrarsizligi (scenario.py 137-138 inside the
attack trigger and 228-229 in the final stop loop): Python
`if not tx_id: continue`. -/
def sebeke_stop_guard (tx_entry : Option Nat) : Bool :=
  match tx_entry with
  | none => false
  | some tx => tx != 0

/-- MeterValues emission decision of sebeke_istikrarsizligi for one CP at one
step (scenario.py 170-214): after the attack trigger the CP always sends
(with zero power and whatever `tx_ids.get(cp.id)` holds); otherwise only the
`tx_id is None` check guards the send, so any stored integer — including the
hard-rejection value 0 — is sent with normal power.  Returns
`some transaction_id_field` when a MeterValues message is sent, `none` when
the step is skipped. -/
def sebeke_meter_decision (mode : String) (attack_triggered : Bool)
    (tx_entry : Option Nat) : Option (Option Nat) :=
  if mode = "attack" ∧ attack_triggered then some tx_entry
  else
    match tx_entry with
    | none => none
    | some tx => some (some tx)

/-! ## Session lemmas -/

theorem handle_authorized_tags (s : Session) (m : Msg) (tag : String) :
    tag ∈ (handle s m).1.authorized_tags ↔
      tag ∈ s.authorized_tags ∨ (m = Msg.authorize tag ∧ valid_tag tag = true) := by
  cases m with
  | authorize t =>
    by_cases h : valid_tag t
    · simp only [handle, on_authorize, h, if_true, List.mem_insert_iff, Msg.authorize.injEq]
      constructor
      · rintro (rfl | hmem)
        · exact Or.inr ⟨rfl, h⟩
        · exact Or.inl hmem
      · rintro (hmem | ⟨rfl, _⟩)
        · exact Or.inr hmem
        · exact Or.inl rfl
    · simp only [handle, on_authorize, h, if_false, Msg.authorize.injEq]
      constructor
      · exact Or.inl
      · rintro (hmem | ⟨rfl, hv⟩)
        · exact hmem
        · exact absurd hv h
  | bootNotification v mo now => simp [handle, on_boot_notification]
  | heartbeat now => simp [handle, on_heartbeat]
  | statusNotification cid ec st ts => simp [handle, on_status_notification]
  | startTransaction cid t mst ts =>
    by_cases h : t ∈ s.authorized_tags <;>
      simp [handle, on_start_transaction, h]
  | meterValues cid mv tx => simp [handle, on_meter_values]
  | stopTransaction tx mst ts => simp [handle, on_stop_transaction]

theorem run_authorized_tags (ms : List Msg) : ∀ (s : Session) (tag : String),
    tag ∈ (run_msgs s ms).authorized_tags ↔
      tag ∈ s.authorized_tags ∨ (Msg.authorize tag ∈ ms ∧ valid_tag tag = true) := by
  induction ms with
  | nil => intro s tag; simp [run_msgs]
  | cons m ms ih =>
    intro s tag
    rw [run_msgs, ih, handle_authorized_tags]
    simp only [List.mem_cons]
    constructor
    · rintro ((hmem | ⟨rfl, hv⟩) | ⟨hin, hv⟩)
      · exact Or.inl hmem
      · exact Or.inr ⟨Or.inl rfl, hv⟩
      · exact Or.inr ⟨Or.inr hin, hv⟩
    · rintro (hmem | ⟨(rfl | hin), hv⟩)
      · exact Or.inl (Or.inl hmem)
      · exact Or.inl (Or.inr ⟨rfl, hv⟩)
      · exact Or.inr ⟨hin, hv⟩

theorem run_next_tx_id (ms : List Msg) : ∀ s : Session,
    (run_msgs s ms).next_tx_id =
      s.next_tx_id + (accepted_tx_ids (run_replies s ms)).length := by
  induction ms with
  | nil => intro s; simp [run_msgs, run_replies, accepted_tx_ids]
  | cons m ms ih =>
    intro s
    cases m with
    | startTransaction cid t mst ts =>
      by_cases h : t ∈ s.authorized_tags
      · rw [run_msgs, run_replies, ih]
        simp [handle, on_start_transaction, h, accepted_tx_ids, List.filterMap_cons]
        omega
      · rw [run_msgs, run_replies, ih]
        simp [handle, on_start_transaction, h, accepted_tx_ids, List.filterMap_cons]
    | authorize t =>
      rw [run_msgs, run_replies, ih]
      by_cases hv : valid_tag t <;>
        simp [handle, on_authorize, hv, accepted_tx_ids, List.filterMap_cons]
    | bootNotification v mo now =>
      rw [run_msgs, run_replies, ih]
      simp [handle, on_boot_notification, accepted_tx_ids, List.filterMap_cons]
    | heartbeat now =>
      rw [run_msgs, run_replies, ih]
      simp [handle, on_heartbeat, accepted_tx_ids, List.filterMap_cons]
    | statusNotification cid ec st ts =>
      rw [run_msgs, run_replies, ih]
      simp [handle, on_status_notification, accepted_tx_ids, List.filterMap_cons]
    | meterValues cid mv tx =>
      rw [run_msgs, run_replies, ih]
      simp [handle, on_meter_values, accepted_tx_ids, List.filterMap_cons]
    | stopTransaction tx mst ts =>
      rw [run_msgs, run_replies, ih]
      simp [handle, on_stop_transaction, accepted_tx_ids, List.filterMap_cons]

theorem run_accepted_tx_ids (ms : List Msg) : ∀ s : Session,
    accepted_tx_ids (run_replies s ms) =
      List.range' s.next_tx_id (accepted_tx_ids (run_replies s ms)).length := by
  induction ms with
  | nil => intro s; simp [run_replies, accepted_tx_ids]
  | cons m ms ih =>
    intro s
    cases m with
    | startTransaction cid t mst ts =>
      by_cases h : t ∈ s.authorized_tags
      · rw [run_replies]
        simp only [handle, on_start_transaction, h, if_true, accepted_tx_ids,
          List.filterMap_cons, List.length_cons, List.range'_succ, List.cons.injEq,
          true_and]
        simpa [accepted_tx_ids] using ih _
      · rw [run_replies]
        simp only [handle, on_start_transaction, h, if_false, accepted_tx_ids,
          List.filterMap_cons]
        exact ih _
    | authorize t =>
      rw [run_replies]
      by_cases hv : valid_tag t
      · simp only [handle, on_authorize, hv, if_true, accepted_tx_ids, List.filterMap_cons]
        exact ih _
      · simp only [handle, on_authorize, hv, if_false, accepted_tx_ids, List.filterMap_cons]
        exact ih _
    | bootNotification v mo now =>
      rw [run_replies]
      simp only [handle, on_boot_notification, accepted_tx_ids, List.filterMap_cons]
      exact ih _
    | heartbeat now =>
      rw [run_replies]
      simp only [handle, on_heartbeat, accepted_tx_ids, List.filterMap_cons]
      exact ih _
    | statusNotification cid ec st ts =>
      rw [run_replies]
      simp only [handle, on_status_notification, accepted_tx_ids, List.filterMap_cons]
      exact ih _
    | meterValues cid mv tx =>
      rw [run_replies]
      simp only [handle, on_meter_values, accepted_tx_ids, List.filterMap_cons]
      exact ih _
    | stopTransaction tx mst ts =>
      rw [run_replies]
      simp only [handle, on_stop_transaction, accepted_tx_ids, List.filterMap_cons]
      exact ih _

/-! ## Connector map lemmas -/

theorem conn_mem_cons (cid k : Nat) (c : Connector) (rest : List (Nat × Connector)) :
    conn_mem cid ((k, c) :: rest) = (k == cid || conn_mem cid rest) := by
  simp [conn_mem]

theorem lookup_conn_update_self (cid : Nat) (f : Connector → Connector) :
    ∀ cs : List (Nat × Connector),
      lookup_conn cid (conn_update cid f cs) = (lookup_conn cid cs).map f := by
  intro cs
  induction cs with
  | nil => simp [conn_update, lookup_conn]
  | cons p rest ih =>
    obtain ⟨k, c⟩ := p
    by_cases hk : k = cid
    · simp [conn_update, lookup_conn, hk]
    · simp [conn_update, lookup_conn, hk, ih]

theorem lookup_conn_update_other (cid cid' : Nat) (f : Connector → Connector)
    (h : cid' ≠ cid) : ∀ cs : List (Nat × Connector),
      lookup_conn cid' (conn_update cid f cs) = lookup_conn cid' cs := by
  intro cs
  induction cs with
  | nil => simp [conn_update]
  | cons p rest ih =>
    obtain ⟨k, c⟩ := p
    by_cases hk : k = cid
    · subst hk
      simp [conn_update, lookup_conn, Ne.symm h]
    · simp [conn_update, lookup_conn, hk, ih]

theorem lookup_conn_none_of_not_mem (cid : Nat) :
    ∀ cs : List (Nat × Connector), conn_mem cid cs = false → lookup_conn cid cs = none := by
  intro cs
  induction cs with
  | nil => intro _; simp [lookup_conn]
  | cons p rest ih =>
    obtain ⟨k, c⟩ := p
    intro h
    rw [conn_mem_cons] at h
    simp only [Bool.or_eq_false_iff, beq_eq_false_iff_ne] at h
    simp [lookup_conn, h.1, ih h.2]

theorem lookup_conn_some_of_mem (cid : Nat) :
    ∀ cs : List (Nat × Connector), conn_mem cid cs = true →
      ∃ c, lookup_conn cid cs = some c := by
  intro cs
  induction cs with
  | nil => intro h; simp [conn_mem] at h
  | cons p rest ih =>
    obtain ⟨k, c⟩ := p
    intro h
    by_cases hk : k = cid
    · exact ⟨c, by simp [lookup_conn, hk]⟩
    · rw [conn_mem_cons] at h
      simp only [Bool.or_eq_true, beq_iff_eq] at h
      rcases h with h | h
      · exact absurd h hk
      · obtain ⟨c', hc'⟩ := ih h
        exact ⟨c', by simp [lookup_conn, hk, hc']⟩

theorem lookup_conn_append_right (cid : Nat) (ds : List (Nat × Connector)) :
    ∀ cs : List (Nat × Connector), lookup_conn cid cs = none →
      lookup_conn cid (cs ++ ds) = lookup_conn cid ds := by
  intro cs
  induction cs with
  | nil => intro _; rfl
  | cons p rest ih =>
    obtain ⟨k, c⟩ := p
    intro h
    by_cases hk : k = cid
    · simp [lookup_conn, hk] at h
    · simp only [lookup_conn, hk, if_false] at h
      simp only [List.cons_append, lookup_conn, hk, if_false]
      exact ih h

theorem lookup_conn_append_single_other (cid cid' : Nat) (c : Connector)
    (h : cid' ≠ cid) : ∀ cs : List (Nat × Connector),
      lookup_conn cid' (cs ++ [(cid, c)]) = lookup_conn cid' cs := by
  intro cs
  induction cs with
  | nil => simp [lookup_conn, Ne.symm h]
  | cons p rest ih =>
    obtain ⟨k, c'⟩ := p
    by_cases hk : k = cid' <;> simp [lookup_conn, hk, ih]

theorem lookup_conn_setdefault_self (cid : Nat) (f : Connector → Connector)
    (cs : List (Nat × Connector)) :
    lookup_conn cid (conn_setdefault_update cid f cs) =
      some (f ((lookup_conn cid cs).getD {})) := by
  unfold conn_setdefault_update
  by_cases hm : conn_mem cid cs
  · rw [if_pos hm, lookup_conn_update_self]
    obtain ⟨c, hc⟩ := lookup_conn_some_of_mem cid cs hm
    simp [hc]
  · rw [if_neg (by simp [hm])]
    have h0 : lookup_conn cid cs = none :=
      lookup_conn_none_of_not_mem cid cs (by simpa using hm)
    rw [lookup_conn_append_right cid _ cs h0]
    simp [lookup_conn, h0]

theorem lookup_conn_setdefault_other (cid cid' : Nat) (f : Connector → Connector)
    (cs : List (Nat × Connector)) (h : cid' ≠ cid) :
    lookup_conn cid' (conn_setdefault_update cid f cs) = lookup_conn cid' cs := by
  unfold conn_setdefault_update
  by_cases hm : conn_mem cid cs
  · rw [if_pos hm, lookup_conn_update_other cid cid' f h]
  · rw [if_neg (by simp [hm])]
    exact lookup_conn_append_single_other cid cid' _ h cs

/-! ## Claim theorems: session state machine -/

/-- C1: a StartTransaction on a CSMS session is answered Accepted with a
non-zero transaction id exactly when its id_tag is in the session's
authorized set at the time of the call; a tag is in that set exactly when
the same session earlier processed an Authorize CALL for that tag with a
tag in VALID_TAGS; and an Authorize CALL returns Accepted exactly for tags
in VALID_TAGS — so every accepted StartTransaction is preceded, on the same
session, by an Authorize for the same id_tag that returned Accepted. -/
theorem c1_start_accepted_iff_authorized (cp : String) (ms : List Msg)
    (connector_id : Nat) (id_tag : String) (meter_start : Int) (ts : String) :
    ((∃ tx, (on_start_transaction (run_msgs (init_session cp) ms) connector_id id_tag
        meter_start ts).2.1 = Reply.startTransaction tx AuthStatus.accepted ∧ tx ≠ 0) ↔
      id_tag ∈ (run_msgs (init_session cp) ms).authorized_tags) ∧
    (id_tag ∈ (run_msgs (init_session cp) ms).authorized_tags ↔
      (Msg.authorize id_tag ∈ ms ∧ valid_tag id_tag = true)) ∧
    (∀ s : Session,
      ((on_authorize s id_tag).2.1 = Reply.authorize AuthStatus.accepted ↔
        valid_tag id_tag = true)) := by
  refine ⟨?_, ?_, ?_⟩
  · by_cases h : id_tag ∈ (run_msgs (init_session cp) ms).authorized_tags
    · simp only [on_start_transaction, h, if_true, h, iff_true]
      refine ⟨(run_msgs (init_session cp) ms).next_tx_id, rfl, ?_⟩
      have h2 := run_next_tx_id ms (init_session cp)
      have h1 : (init_session cp).next_tx_id = 1 := rfl
      omega
    · simp only [on_start_transaction, h, if_false, h, iff_false, not_exists]
      intro tx
      rintro ⟨heq, -⟩
      exact absurd heq (by simp)
  · have := run_authorized_tags ms (init_session cp) id_tag
    simpa [init_session] using this
  · intro s
    by_cases hv : valid_tag id_tag
    · simp [on_authorize, hv]
    · simp [on_authorize, hv]

/-- C2: a StartTransaction whose id_tag is not in the authorized set leaves
the whole session (connector map and transaction counter included) unchanged,
emits a StartTransactionRejected event and answers `(0, Invalid)`; one whose
id_tag is authorized answers Accepted with the current `next_tx_id`, bumps
the counter, and makes the connector's record Charging with this id recorded
as `last_tx_id`, leaving every other connector untouched. -/
theorem c2_start_transaction_branches (s : Session) (connector_id : Nat)
    (id_tag : String) (meter_start : Int) (ts : String) :
    (id_tag ∉ s.authorized_tags →
      (on_start_transaction s connector_id id_tag meter_start ts).1 = s ∧
      (on_start_transaction s connector_id id_tag meter_start ts).2.1 =
        Reply.startTransaction 0 AuthStatus.invalid ∧
      (on_start_transaction s connector_id id_tag meter_start ts).2.2.map Prod.fst =
        ["StartTransactionRejected"]) ∧
    (id_tag ∈ s.authorized_tags →
      (on_start_transaction s connector_id id_tag meter_start ts).2.1 =
        Reply.startTransaction s.next_tx_id AuthStatus.accepted ∧
      (on_start_transaction s connector_id id_tag meter_start ts).1.next_tx_id =
        s.next_tx_id + 1 ∧
      lookup_conn connector_id
          (on_start_transaction s connector_id id_tag meter_start ts).1.connectors =
        some { (lookup_conn connector_id s.connectors).getD {} with
                status := some "Charging", last_tx_id := some s.next_tx_id } ∧
      (∀ cid, cid ≠ connector_id →
        lookup_conn cid (on_start_transaction s connector_id id_tag meter_start ts).1.connectors =
          lookup_conn cid s.connectors) ∧
      (on_start_transaction s connector_id id_tag meter_start ts).1.authorized_tags =
        s.authorized_tags ∧
      (on_start_transaction s connector_id id_tag meter_start ts).2.2.map Prod.fst =
        ["StartTransaction"]) := by
  constructor
  · intro h
    simp [on_start_transaction, h]
  · intro h
    refine ⟨?_, ?_, ?_, ?_, ?_, ?_⟩
    · simp [on_start_transaction, h]
    · simp [on_start_transaction, h]
    · simp only [on_start_transaction, h, if_true]
      exact lookup_conn_setdefault_self connector_id _ s.connectors
    · intro cid hcid
      simp only [on_start_transaction, h, if_true]
      exact lookup_conn_setdefault_other connector_id cid _ s.connectors hcid
    · simp [on_start_transaction, h]
    · simp [on_start_transaction, h]

/-- Session used to instantiate the hypotheses of several claim theorems. -/
def w_session : Session :=
  { id := "CP_001",
    authorized_tags := ["YUNUS_TAG"],
    connectors := [(1, { status := some "Charging", last_tx_id := some 5 }),
                   (2, { status := some "Charging", last_tx_id := some 6 })] }

/-- Witness for C2: on a concrete session, an unauthorized tag leaves the
session unchanged, an authorized tag is answered with the session's counter
value. -/
theorem c2_start_transaction_branches_witness :
    ("BAD_TAG" ∉ w_session.authorized_tags ∧
      (on_start_transaction w_session 1 "BAD_TAG" 0 "t").1 = w_session) ∧
    ("YUNUS_TAG" ∈ w_session.authorized_tags ∧
      (on_start_transaction w_session 1 "YUNUS_TAG" 0 "t").2.1 =
        Reply.startTransaction w_session.next_tx_id AuthStatus.accepted) :=
  ⟨⟨by decide, ((c2_start_transaction_branches w_session 1 "BAD_TAG" 0 "t").1 (by decide)).1⟩,
   ⟨by decide, ((c2_start_transaction_branches w_session 1 "YUNUS_TAG" 0 "t").2 (by decide)).1⟩⟩

/-- Chains of strictly increasing naturals produced by `List.range'`. -/
theorem chain_lt_range' (n : ℕ) : ∀ a : ℕ, List.Chain' (· < ·) (List.range' a n) := by
  induction n with
  | zero => intro a; simp
  | succ n ih =>
    intro a
    rw [List.range'_succ]
    match n with
    | 0 => simp
    | Nat.succ n' =>
      rw [List.range'_succ, List.chain'_cons]
      exact ⟨by omega, by rw [← List.range'_succ]; exact ih (a + 1)⟩

/-- C7: a fresh session's transaction counter is 1; after any sequence of
handler invocations it is still at least 1; and the transaction ids returned
by the accepted StartTransaction answers of one session form, in order,
exactly the chain 1, 2, 3, ... — strictly increasing, first id 1. -/
theorem c7_tx_counter_monotone (cp : String) (ms : List Msg) :
    (init_session cp).next_tx_id = 1 ∧
    1 ≤ (run_msgs (init_session cp) ms).next_tx_id ∧
    accepted_tx_ids (run_replies (init_session cp) ms) =
      List.range' 1 (accepted_tx_ids (run_replies (init_session cp) ms)).length ∧
    List.Chain' (· < ·) (accepted_tx_ids (run_replies (init_session cp) ms)) := by
  refine ⟨rfl, ?_, ?_, ?_⟩
  · have h2 := run_next_tx_id ms (init_session cp)
    have h1 : (init_session cp).next_tx_id = 1 := rfl
    omega
  · have := run_accepted_tx_ids ms (init_session cp)
    simpa [init_session] using this
  · have h := run_accepted_tx_ids ms (init_session cp)
    rw [h]
    exact chain_lt_range' _ _

/-- C9: the StopTransaction handler answers with the unconditional empty
acceptance, leaves the authorized set, counter, heartbeat state and id
untouched, and rewrites exactly the connectors whose `last_tx_id` equals the
stopped transaction to status Available, leaving all the rest as they were. -/
theorem c9_stop_transaction_frame (s : Session) (transaction_id : Nat)
    (meter_stop : Int) (ts : String) :
    (on_stop_transaction s transaction_id meter_stop ts).2.1 = Reply.stopTransaction ∧
    (on_stop_transaction s transaction_id meter_stop ts).1.authorized_tags =
      s.authorized_tags ∧
    (on_stop_transaction s transaction_id meter_stop ts).1.next_tx_id = s.next_tx_id ∧
    (on_stop_transaction s transaction_id meter_stop ts).1.last_heartbeat =
      s.last_heartbeat ∧
    (on_stop_transaction s transaction_id meter_stop ts).1.heartbeat_interval =
      s.heartbeat_interval ∧
    (on_stop_transaction s transaction_id meter_stop ts).1.id = s.id ∧
    (on_stop_transaction s transaction_id meter_stop ts).1.connectors =
      s.connectors.map (fun p =>
        if p.2.last_tx_id = some transaction_id then
          (p.1, { p.2 with status := some "Available" })
        else p) ∧
    (∀ k c, (k, c) ∈ s.connectors → c.last_tx_id = some transaction_id →
      (k, { c with status := some "Available" }) ∈
        (on_stop_transaction s transaction_id meter_stop ts).1.connectors) ∧
    (∀ k c, (k, c) ∈ s.connectors → c.last_tx_id ≠ some transaction_id →
      (k, c) ∈ (on_stop_transaction s transaction_id meter_stop ts).1.connectors) := by
  refine ⟨rfl, rfl, rfl, rfl, rfl, rfl, rfl, ?_, ?_⟩
  · intro k c hmem hc
    have := List.mem_map_of_mem (fun p : Nat × Connector =>
      if p.2.last_tx_id = some transaction_id then
        (p.1, { p.2 with status := some "Available" })
      else p) hmem
    simpa [on_stop_transaction, hc] using this
  · intro k c hmem hc
    have := List.mem_map_of_mem (fun p : Nat × Connector =>
      if p.2.last_tx_id = some transaction_id then
        (p.1, { p.2 with status := some "Available" })
      else p) hmem
    simpa [on_stop_transaction, hc] using this

/-- Witness for C9: on a concrete session, stopping transaction 5 turns the
matching connector Available and leaves the other connector alone. -/
theorem c9_stop_transaction_frame_witness :
    ((1, ({ status := some "Charging", last_tx_id := some 5 } : Connector)) ∈
        w_session.connectors ∧
      (1, ({ status := some "Available", last_tx_id := some 5 } : Connector)) ∈
        (on_stop_transaction w_session 5 0 "t").1.connectors) ∧
    ((2, ({ status := some "Charging", last_tx_id := some 6 } : Connector)) ∈
        w_session.connectors ∧
      (2, ({ status := some "Charging", last_tx_id := some 6 } : Connector)) ∈
        (on_stop_transaction w_session 5 0 "t").1.connectors) :=
  ⟨⟨by decide,
    (c9_stop_transaction_frame w_session 5 0 "t").2.2.2.2.2.2.2.1 1
      { status := some "Charging", last_tx_id := some 5 } (by decide) (by decide)⟩,
   ⟨by decide,
    (c9_stop_transaction_frame w_session 5 0 "t").2.2.2.2.2.2.2.2 2
      { status := some "Charging", last_tx_id := some 6 } (by decide) (by decide)⟩⟩

/-! ## Watchdog lemmas and claims -/

theorem heartbeat_watchdog_tick_eq (now : Int) :
    ∀ reg : List (String × Session),
      heartbeat_watchdog_tick now reg =
        ⟨reg.filter (fun p => !is_offline now p.2),
         (reg.filter (fun p => is_offline now p.2)).map
           (fun p => (p.1, mark_unavailable p.2)),
         (reg.filter (fun p => is_offline now p.2)).map
           (fun p => ("CPOffline", cp_offline_event now p.1 p.2))⟩ := by
  intro reg
  induction reg with
  | nil => rfl
  | cons p rest ih =>
    obtain ⟨cp_id, cp⟩ := p
    by_cases h : is_offline now cp
    · simp [heartbeat_watchdog_tick, h, ih, List.filter_cons]
    · simp [heartbeat_watchdog_tick, h, ih, List.filter_cons]

/-- C3: on a watchdog pass (tick period `CHECK_INTERVAL = 5` seconds), every
registered session with a recorded heartbeat older than three times its
heartbeat interval is evicted in one step — CPOffline event emitted,
connectors all marked Unavailable, transport closed, registry entry gone —
while every session with no recorded heartbeat or within the threshold stays
registered unchanged. -/
theorem c3_watchdog_eviction (now : Int) (reg : List (String × Session))
    (cp_id : String) (s : Session) (last : Int) (hmem : (cp_id, s) ∈ reg) :
    CHECK_INTERVAL = 5 ∧
    (s.last_heartbeat = some last → now - last > s.heartbeat_interval * 3 →
      ((cp_id, mark_unavailable s) ∈ (heartbeat_watchdog_tick now reg).closed ∧
       ("CPOffline",
         ({ cp_id := some cp_id, last_heartbeat := some last,
            diff_seconds := some (now - last) } : EventData)) ∈
           (heartbeat_watchdog_tick now reg).events ∧
       (cp_id, s) ∉ (heartbeat_watchdog_tick now reg).remaining ∧
       (∀ k c, (k, c) ∈ s.connectors →
         (k, { c with status := some "Unavailable" }) ∈ (mark_unavailable s).connectors))) ∧
    ((s.last_heartbeat = none ∨
        (s.last_heartbeat = some last ∧ ¬ now - last > s.heartbeat_interval * 3)) →
      (cp_id, s) ∈ (heartbeat_watchdog_tick now reg).remaining) := by
  refine ⟨rfl, ?_, ?_⟩
  · intro hlast hdiff
    have hoff : is_offline now s = true := by simp [is_offline, hlast, hdiff]
    rw [heartbeat_watchdog_tick_eq]
    refine ⟨?_, ?_, ?_, ?_⟩
    · exact List.mem_map_of_mem _ (List.mem_filter_of_mem hmem (by simp [hoff]))
    · have hev : cp_offline_event now cp_id s =
          { cp_id := some cp_id, last_heartbeat := some last,
            diff_seconds := some (now - last) } := by
        simp [cp_offline_event, hlast]
      rw [← hev]
      exact List.mem_map_of_mem _ (List.mem_filter_of_mem hmem (by simp [hoff]))
    · intro hin
      rw [List.mem_filter] at hin
      simp [hoff] at hin
    · intro k c hkc
      exact List.mem_map_of_mem _ hkc
  · intro hcase
    have hoff : is_offline now s = false := by
      rcases hcase with h | ⟨hlast, hnd⟩
      · simp [is_offline, h]
      · simp [is_offline, hlast, hnd]
    rw [heartbeat_watchdog_tick_eq]
    exact List.mem_filter_of_mem hmem (by simp [hoff])

/-- Stale session used to instantiate the watchdog claims. -/
def w_off_session : Session := { id := "CP_OFF", last_heartbeat := some 0 }

/-- Fresh session used to instantiate the watchdog claims. -/
def w_on_session : Session := { id := "CP_ON", last_heartbeat := some 95 }

/-- Never-booted session used to instantiate the watchdog claims. -/
def w_silent_session : Session := { id := "CP_SILENT" }

/-- Registry used to instantiate the watchdog claims. -/
def w_registry : List (String × Session) :=
  [("CP_OFF", w_off_session), ("CP_ON", w_on_session), ("CP_SILENT", w_silent_session)]

/-- Witness for C3: at time 100 the stale session (heartbeat at 0, interval
10) is closed with its connectors unavailable, while the fresh one stays. -/
theorem c3_watchdog_eviction_witness :
    (("CP_OFF", w_off_session) ∈ w_registry ∧
      w_off_session.last_heartbeat = some 0 ∧
      (100 : Int) - 0 > w_off_session.heartbeat_interval * 3 ∧
      ("CP_OFF", mark_unavailable w_off_session) ∈
        (heartbeat_watchdog_tick 100 w_registry).closed) ∧
    (("CP_ON", w_on_session) ∈ w_registry ∧
      ("CP_ON", w_on_session) ∈ (heartbeat_watchdog_tick 100 w_registry).remaining) :=
  ⟨⟨by decide, rfl, by decide,
    ((c3_watchdog_eviction 100 w_registry "CP_OFF" w_off_session 0 (by decide)).2.1
      rfl (by decide)).1⟩,
   ⟨by decide,
    (c3_watchdog_eviction 100 w_registry "CP_ON" w_on_session 95 (by decide)).2.2
      (Or.inr ⟨rfl, by decide⟩)⟩⟩

theorem run_watchdog_keeps_silent (times : List Int) :
    ∀ (reg : List (String × Session)) (cp_id : String) (s : Session),
      (cp_id, s) ∈ reg → s.last_heartbeat = none →
      (cp_id, s) ∈ run_watchdog times reg := by
  induction times with
  | nil => intro reg cp_id s hmem _; exact hmem
  | cons t ts ih =>
    intro reg cp_id s hmem hnone
    simp only [run_watchdog, List.foldl_cons]
    exact ih _ cp_id s
      (by rw [heartbeat_watchdog_tick_eq]
          exact List.mem_filter_of_mem hmem (by simp [is_offline, hnone]))
      hnone

/-- C10: the watchdog never evicts a session whose `last_heartbeat` was never
set — such a session survives every sequence of watchdog ticks unchanged —
while the BootNotification handler initializes `last_heartbeat` to the boot
time, so eviction timing for a booted CP runs from its boot even if it never
sends a Heartbeat. -/
theorem c10_silent_session_kept (times : List Int) (reg : List (String × Session))
    (cp_id : String) (s : Session) (hmem : (cp_id, s) ∈ reg)
    (hnone : s.last_heartbeat = none) :
    (cp_id, s) ∈ run_watchdog times reg ∧
    (∀ (s' : Session) (vendor mo : String) (now : Int),
      (on_boot_notification s' vendor mo now).1.last_heartbeat = some now) :=
  ⟨run_watchdog_keeps_silent times reg cp_id s hmem hnone,
   fun _ _ _ _ => rfl⟩

/-- Witness for C10: the never-booted session survives three watchdog ticks
far apart. -/
theorem c10_silent_session_kept_witness :
    (("CP_SILENT", w_silent_session) ∈ w_registry ∧
      w_silent_session.last_heartbeat = none) ∧
    ("CP_SILENT", w_silent_session) ∈ run_watchdog [100, 1000, 100000] w_registry :=
  ⟨⟨by decide, rfl⟩,
   (c10_silent_session_kept [100, 1000, 100000] w_registry "CP_SILENT" w_silent_session
      (by decide) rfl).1⟩

/-! ## Log routing claims -/

theorem unified_rows_project (label_for : EventData → String → String)
    (scen mode now_iso : String) :
    ∀ (evs : List (String × EventData)) (c : Nat),
      (unified_rows label_for scen mode now_iso c evs).map
          (fun r => (r.message_type, r.raw_payload)) =
        evs.filter (fun p => !(p.1 == "Heartbeat")) := by
  intro evs
  induction evs with
  | nil => intro c; rfl
  | cons p rest ih =>
    obtain ⟨mt, e⟩ := p
    intro c
    by_cases h : mt = "Heartbeat"
    · simp [unified_rows, event_to_row, h, ih, List.filter_cons]
    · simp [unified_rows, event_to_row, h, ih, List.filter_cons]

theorem filter_not_heartbeat_length (evs : List (String × EventData)) :
    (evs.filter (fun p => !(p.1 == "Heartbeat"))).length =
      evs.length - (evs.filter (fun p => p.1 == "Heartbeat")).length := by
  induction evs with
  | nil => rfl
  | cons p rest ih =>
    have hle := List.length_filter_le (fun p : String × EventData => p.1 == "Heartbeat") rest
    by_cases h : p.1 = "Heartbeat"
    · simp [List.filter_cons, h, ih]
    · simp [List.filter_cons, h, ih]
      omega

/-- C4: the row conversion returns no row exactly for Heartbeat events and
exactly one row for every other event, so the unified labeled table is the
event stream minus its Heartbeat entries (projecting each row back to its
message type and payload gives precisely the filtered stream, and the row
count is the event count minus the Heartbeat count). -/
theorem c4_unified_excludes_heartbeat (label_for : EventData → String → String)
    (scen mode now_iso : String) :
    (∀ (mt : String) (e : EventData) (c : Nat),
      ((event_to_row label_for scen mode now_iso mt e c).1 = none ↔ mt = "Heartbeat")) ∧
    (∀ (evs : List (String × EventData)) (c : Nat),
      (unified_rows label_for scen mode now_iso c evs).map
          (fun r => (r.message_type, r.raw_payload)) =
        evs.filter (fun p => !(p.1 == "Heartbeat"))) ∧
    (∀ (evs : List (String × EventData)) (c : Nat),
      (unified_rows label_for scen mode now_iso c evs).length =
        evs.length - (evs.filter (fun p => p.1 == "Heartbeat")).length) := by
  refine ⟨?_, unified_rows_project label_for scen mode now_iso, ?_⟩
  · intro mt e c
    by_cases h : mt = "Heartbeat" <;> simp [event_to_row, h]
  · intro evs c
    have hm := congrArg List.length (unified_rows_project label_for scen mode now_iso evs c)
    rw [List.length_map] at hm
    rw [hm, filter_not_heartbeat_length]

/-- C8 (amended form): every event contributes exactly one events_raw row and
at most one typed-table row, so the events_raw row count is the sum over the
four typed tables plus the count of events (BootNotification, Authorize,
StartTransactionRejected, CPOffline, ...) that are routed to no typed
table. -/
theorem c8_raw_count_partition (evs : List (String × EventData)) :
    raw_row_count evs =
      typed_row_count .heartbeats evs + typed_row_count .status_notifications evs +
      typed_row_count .meter_values evs + typed_row_count .transactions evs +
      untyped_row_count evs := by
  induction evs with
  | nil => rfl
  | cons p rest ih =>
    obtain ⟨mt, e⟩ := p
    simp only [raw_row_count, typed_row_count, untyped_row_count] at ih
    rcases htt : typed_table_for mt with _ | t
    · simp only [raw_row_count, typed_row_count, untyped_row_count,
        List.filter_cons, htt, List.length_cons]
      simp
      omega
    · cases t <;>
        (simp only [raw_row_count, typed_row_count, untyped_row_count,
          List.filter_cons, htt, List.length_cons]
         simp
         omega)

/-- Event stream exercising the gap between events_raw and the typed tables:
a single Authorize event. -/
def c8_events : List (String × EventData) := [("Authorize", { cp_id := some "CP_001" })]

/-- Counterexample for C8 as stated: a stream consisting of one Authorize
event yields one events_raw row and zero rows across the four typded tables,
so the claimed equality fails. -/
theorem c8_raw_count_counterexample :
    ¬ (raw_row_count c8_events =
        typed_row_count .heartbeats c8_events +
        typed_row_count .status_notifications c8_events +
        typed_row_count .meter_values c8_events +
        typed_row_count .transactions c8_events) := by
  decide

/-! ## State-of-charge claims -/

theorem soc_delta_nonneg (cap p : ℚ) (hcap : 0 < cap) :
    0 ≤ max p 0 * (1 / 3600) / cap * 100 := by
  have h1 : (0 : ℚ) ≤ max p 0 := le_max_right p 0
  have h2 : (0 : ℚ) ≤ max p 0 * (1 / 3600) := by
    apply mul_nonneg h1
    norm_num
  have h3 : (0 : ℚ) ≤ max p 0 * (1 / 3600) / cap := div_nonneg h2 hcap.le
  linarith

theorem soc_step_bounds (cap soc p : ℚ) (hcap : 0 < cap) (h0 : 0 ≤ soc)
    (h1 : soc ≤ 100) :
    0 ≤ soc_step cap soc p ∧ soc_step cap soc p ≤ 100 ∧ soc ≤ soc_step cap soc p := by
  have hd := soc_delta_nonneg cap p hcap
  refine ⟨?_, min_le_left _ _, ?_⟩
  · exact le_min (by norm_num) (by linarith)
  · exact le_min h1 (by linarith)

theorem head_scanl {α β : Type} (f : α → β → α) (s : α) (l : List β) :
    (List.scanl f s l).head? = some s := by
  cases l <;> simp [List.scanl_nil, List.scanl_cons]

theorem chain_scanl_soc (cap : ℚ) (hcap : 0 < cap) :
    ∀ (ps : List ℚ) (soc : ℚ), 0 ≤ soc → soc ≤ 100 →
      List.Chain' (· ≤ ·) (List.scanl (soc_step cap) soc ps) := by
  intro ps
  induction ps with
  | nil => intro soc _ _; simp [List.scanl_nil]
  | cons p ps ih =>
    intro soc h0 h1
    rw [List.scanl_cons, List.singleton_append, List.chain'_cons']
    obtain ⟨hb0, hb100, hmono⟩ := soc_step_bounds cap soc p hcap h0 h1
    refine ⟨?_, ih _ hb0 hb100⟩
    intro y hy
    rw [head_scanl] at hy
    simp only [Option.mem_def, Option.some.injEq] at hy
    subst hy
    exact hmono

theorem mem_scanl_soc (cap : ℚ) (hcap : 0 < cap) :
    ∀ (ps : List ℚ) (soc : ℚ), 0 ≤ soc → soc ≤ 100 →
      ∀ x ∈ List.scanl (soc_step cap) soc ps, 0 ≤ x ∧ x ≤ 100 := by
  intro ps
  induction ps with
  | nil =>
    intro soc h0 h1 x hx
    simp [List.scanl_nil] at hx
    subst hx
    exact ⟨h0, h1⟩
  | cons p ps ih =>
    intro soc h0 h1 x hx
    rw [List.scanl_cons, List.singleton_append, List.mem_cons] at hx
    rcases hx with rfl | hx
    · exact ⟨h0, h1⟩
    · obtain ⟨hb0, hb100, _⟩ := soc_step_bounds cap soc p hcap h0 h1
      exact ih _ hb0 hb100 x hx

/-- C6: at every step the shared SoC integrator adds exactly
`(max(P, 0) · Δt_h / C) · 100` before the upper clamp, every value it
produces from a state in [0, 100] stays in [0, 100], and along any list of
power samples the SoC trajectory is non-decreasing (in particular whenever
all samples are non-negative). -/
theorem c6_soc_integrator (cap soc : ℚ) (ps : List ℚ) (hcap : 0 < cap)
    (h0 : 0 ≤ soc) (h1 : soc ≤ 100) :
    (∀ p, soc_step cap soc p =
      min 100 (soc + max p 0 * (1 / 3600) / cap * 100)) ∧
    (∀ p, 0 ≤ soc_step cap soc p ∧ soc_step cap soc p ≤ 100 ∧
      soc ≤ soc_step cap soc p) ∧
    List.Chain' (· ≤ ·) (List.scanl (soc_step cap) soc ps) ∧
    (∀ x ∈ List.scanl (soc_step cap) soc ps, 0 ≤ x ∧ x ≤ 100) :=
  ⟨fun _ => rfl,
   fun p => soc_step_bounds cap soc p hcap h0 h1,
   chain_scanl_soc cap hcap ps soc h0 h1,
   mem_scanl_soc cap hcap ps soc h0 h1⟩

/-- Witness for C6 at the scenarios' configuration: capacity 60 kWh, initial
SoC 20 %, one 7 kW sample. -/
theorem c6_soc_integrator_witness :
    (0 : ℚ) < battery_capacity_kwh ∧ (0 : ℚ) ≤ initial_soc ∧ initial_soc ≤ 100 ∧
    (0 ≤ soc_step battery_capacity_kwh initial_soc 7 ∧
      soc_step battery_capacity_kwh initial_soc 7 ≤ 100 ∧
      initial_soc ≤ soc_step battery_capacity_kwh initial_soc 7) :=
  ⟨by norm_num [battery_capacity_kwh], by norm_num [initial_soc],
   by norm_num [initial_soc],
   (c6_soc_integrator battery_capacity_kwh initial_soc [7]
      (by norm_num [battery_capacity_kwh]) (by norm_num [initial_soc])
      (by norm_num [initial_soc])).2.1 7⟩

/-! ## Scenario hard-rejection handling (C5) -/

/-- C5 evaluated at the hard-rejection input: dalgali_yuk's truthiness guard
skips both MeterValues and StopTransaction for a stored transaction id of 0
(or a missing one), and sebeke_istikrarsizligi's stop loops skip it too — but
sebeke's MeterValues loop, which only tests `tx_id is None`, sends a
MeterValues message carrying `transaction_id = 0` in normal mode and in
attack mode both before and after the trigger, contradicting the claim. -/
theorem c5_hard_rejection_meter_guard :
    dalgali_tx_guard (some 0) = false ∧
    dalgali_tx_guard none = false ∧
    sebeke_stop_guard (some 0) = false ∧
    sebeke_meter_decision "normal" false (some 0) = some (some 0) ∧
    sebeke_meter_decision "attack" false (some 0) = some (some 0) ∧
    sebeke_meter_decision "attack" true (some 0) = some (some 0) := by
  decide
